import Mathlib

set_option maxHeartbeats 1000000

namespace DifySpec

/-!
Shallow embedding of the dify-ai-provider stream translation engine
(`src/dify-chat-language-model.ts`) and its event schemas
(`src/dify-chat-schema.ts`).

JavaScript numbers that the code reads (timestamps, token counts,
elapsed times) are modelled as `Int`; JS truthiness checks on strings
and numbers (`if (x)`) are modelled explicitly (`""` and `0` are falsy).
Optional / possibly-absent fields are `Option`.
-/

/-- JSON-like values, used to model raw upstream stream elements before
zod validation. -/
inductive J where
  | null
  | jbool (b : Bool)
  | num (n : Int)
  | str (s : String)
  | arr (elems : List J)
  | obj (fields : List (String × J))

/-- Field lookup on a JSON object's field list (first binding wins). -/
def jget (fs : List (String × J)) (k : String) : Option J :=
  match fs with
  | [] => none
  | (k', v) :: rest => if k' = k then some v else jget rest k

/-- JS truthiness for an optional string: absent and `""` are falsy. -/
def truthyStr : Option String → Bool
  | some s => s ≠ ""
  | none => false

/-- JS truthiness for an optional number: absent and `0` are falsy. -/
def truthyInt : Option Int → Bool
  | some n => n ≠ 0
  | none => false

/-- The kind-specific `data` payload fields the transform reads
(`data.data` in the source). A non-object `data` payload is modelled
as `none` on the event, matching the `typeof data.data === "object"`
guards. -/
structure EventData where
  workflow_id : Option String := none
  created_at : Option Int := none
  finished_at : Option Int := none
  elapsed_time : Option Int := none
  total_tokens : Option Int := none
  node_id : Option String := none
  node_type : Option String := none

/-- The `metadata.usage` fields read by the `message_end` handler. -/
structure UsageMeta where
  prompt_tokens : Option Int := none
  completion_tokens : Option Int := none
  total_tokens : Option Int := none

/-- The `metadata` payload of a stream event. -/
structure EventMetadata where
  usage : Option UsageMeta := none

/-- A validated upstream Dify stream event, as the transform sees it
(`DifyStreamEvent`). `payload` carries the full original JSON object
field list for passthrough (`...data` spreads). -/
structure DifyEvent where
  event : String
  conversation_id : Option String := none
  message_id : Option String := none
  task_id : Option String := none
  created_at : Option Int := none
  workflow_run_id : Option String := none
  id : Option String := none
  answer : Option String := none
  data : Option EventData := none
  metadata : Option EventMetadata := none
  payload : List (String × J) := []

/-- One entry of the node ledger (`state.nodes` map values). -/
structure NodeRecord where
  nodeId : String
  nodeType : String
  startedAt : Option Int := none
  finishedAt : Option Int := none

/-- One node entry of the derived execution report. -/
structure NodeReport where
  nodeId : String
  nodeType : String
  startedAt : Option Int
  finishedAt : Option Int
  duration : Option Int

/-- The derived `executionReport` object. -/
structure ExecReport where
  workflowId : String
  workflowRunId : Option String
  startedAt : Option Int
  finishedAt : Option Int
  duration : Option Int
  nodes : List NodeReport

/-- The provider metadata bag attached to a `finish` part
(`providerMetadata.difyWorkflowData`). -/
structure FinishMeta where
  conversationId : Option String
  messageId : Option String
  taskId : Option String
  workflowExecution : Option ExecReport

/-- Downstream `LanguageModelV2StreamPart`s the transform enqueues.
Timestamps are in milliseconds (`new Date(x * 1000)`). -/
inductive StreamPart where
  | reasoningStart (id : String)
  | reasoningDelta (id : String) (delta : String)
  | reasoningEnd (id : String)
  | textStart (id : String)
  | textDelta (id : String) (delta : String)
  | textEnd (id : String)
  | responseMetadata (id : Option String) (timestampMs : Option Int)
  | finish (finishReason : String) (inputTokens outputTokens totalTokens : Option Int)
      (meta : FinishMeta)
  | error (message : String)
  | raw (difyEvent : String) (duration : Option Int) (payload : DifyEvent)

/-- The per-stream mutable state (`StreamState` in the source).
`idCounter` drives the opaque `generateId` source of fresh reasoning
block ids: the machine is parametrised by `genId : Nat → String` and
draws `genId idCounter`. -/
structure StreamState where
  conversationId : Option String := none
  messageId : Option String := none
  taskId : Option String := none
  isInThinking : Bool := false
  reasoningId : String := ""
  workflowId : Option String := none
  workflowRunId : Option String := none
  workflowStartedAt : Option Int := none
  workflowFinishedAt : Option Int := none
  nodes : List NodeRecord := []
  isActiveText : Bool := false
  isActiveReasoning : Bool := false
  idCounter : Nat := 0

/-- A parse result arriving at the transform: a validated event or a
validation failure (`ParseResult<DifyStreamEvent>`). -/
inductive Chunk where
  | ok (e : DifyEvent)
  | err (message : String)

/-! ### String splitting, matching JS `String.prototype.split` /
`includes` / `indexOf`+`substring` for a non-empty separator. -/

/-- `leadsWith sep cs` is true when `sep` is an initial segment of `cs`. -/
def leadsWith : List Char → List Char → Bool
  | [], _ => true
  | _ :: _, [] => false
  | a :: as, b :: bs => a = b && leadsWith as bs

/-- Left-to-right, non-overlapping split on a separator, fuelled for
structural termination (fuel `length + 1` always suffices). -/
def splitOnCharsAux (sep : List Char) : Nat → List Char → List Char → List (List Char)
  | 0, rest, acc => [acc.reverse ++ rest]
  | _ + 1, [], acc => [acc.reverse]
  | fuel + 1, c :: rest, acc =>
    if leadsWith sep (c :: rest) then
      acc.reverse :: splitOnCharsAux sep fuel ((c :: rest).drop sep.length) []
    else
      splitOnCharsAux sep fuel rest (c :: acc)

/-- JS `s.split(sep)` for non-empty `sep`. -/
def splitOnStr (s sep : String) : List String :=
  (splitOnCharsAux sep.toList (s.toList.length + 1) s.toList []).map List.asString

/-- JS `s.includes(sep)` for non-empty `sep`. -/
def hasSubstr (s sep : String) : Bool :=
  (splitOnStr s sep).length != 1

/-- JS `s.substring(s.indexOf(sep) + sep.length)`: everything after the
first occurrence of `sep` (and `""` when `sep` does not occur). -/
def afterFirst (sep s : String) : String :=
  String.intercalate sep (splitOnStr s sep).tail

/-! ### Reasoning/answer splitter (`parseContentWithThinking`) -/

def thinkBegin : String := "<think>\n"

def thinkEnd : String := "\n</think>"

/-- The per-fragment reasoning/answer splitter, a direct transcription
of `parseContentWithThinking` from the source. -/
def parseContentWithThinking (genId : Nat → String) (newContent : String)
    (s : StreamState) : StreamState × List StreamPart :=
  if hasSubstr newContent thinkBegin && !s.isInThinking then
    let rid := genId s.idCounter
    let s' := { s with isInThinking := true, reasoningId := rid,
                       isActiveReasoning := true, idCounter := s.idCounter + 1 }
    let contentAfterThink := afterFirst thinkBegin newContent
    (s', StreamPart.reasoningStart rid ::
         (if contentAfterThink ≠ "" then
            [StreamPart.reasoningDelta rid contentAfterThink] else []))
  else if s.isInThinking then
    if hasSubstr newContent thinkEnd then
      let pieces := splitOnStr newContent thinkEnd
      let reasoningPart := pieces.headD ""
      let textPart := pieces.getD 1 ""
      let pre := if reasoningPart ≠ "" then
          [StreamPart.reasoningDelta s.reasoningId reasoningPart] else []
      let s' := { s with isInThinking := false, isActiveReasoning := false }
      if textPart ≠ "" then
        ({ s' with isActiveText := true },
         pre ++ [StreamPart.reasoningEnd s.reasoningId,
                 StreamPart.textStart "answer",
                 StreamPart.textDelta "answer" textPart])
      else
        (s', pre ++ [StreamPart.reasoningEnd s.reasoningId])
    else
      (s, [StreamPart.reasoningDelta s.reasoningId newContent])
  else
    if !s.isActiveText then
      ({ s with isActiveText := true },
       [StreamPart.textStart "answer", StreamPart.textDelta "answer" newContent])
    else
      (s, [StreamPart.textDelta "answer" newContent])

/-! ### Node ledger operations (`state.nodes : Map<string, ...>`) -/

/-- JS `Map.set`: replace the value at an existing key in place, else
append (insertion order preserved). -/
def setNode : List NodeRecord → String → NodeRecord → List NodeRecord
  | [], _, r => [r]
  | n :: ns, k, r => if n.nodeId = k then r :: ns else n :: setNode ns k r

/-- JS `Map.get`. -/
def findNode (ns : List NodeRecord) (k : String) : Option NodeRecord :=
  ns.find? (fun n => n.nodeId = k)

/-- The in-place mutation `existingNode.finishedAt = data.created_at`:
identity when the key is absent. -/
def updateNodeFinished (ns : List NodeRecord) (k : String) (t : Int) : List NodeRecord :=
  ns.map (fun n => if n.nodeId = k then { n with finishedAt := some t } else n)

/-! ### Execution reports

The `workflow_finished` handler (source lines 362-374) and the
`message_end` handler (source lines 518-530) each compute an
`executionReport` from the stream state; both source regions are
transcribed separately. -/

/-- The `executionReport` expression of the `workflow_finished` case. -/
def executionReportWF (s : StreamState) : Option ExecReport :=
  if truthyStr s.workflowId then
    some {
      workflowId := s.workflowId.getD "",
      workflowRunId := s.workflowRunId,
      startedAt := s.workflowStartedAt,
      finishedAt := s.workflowFinishedAt,
      duration := if truthyInt s.workflowStartedAt && truthyInt s.workflowFinishedAt then
          some (s.workflowFinishedAt.getD 0 - s.workflowStartedAt.getD 0) else none,
      nodes := s.nodes.map (fun n => {
        nodeId := n.nodeId, nodeType := n.nodeType,
        startedAt := n.startedAt, finishedAt := n.finishedAt,
        duration := if truthyInt n.startedAt && truthyInt n.finishedAt then
            some (n.finishedAt.getD 0 - n.startedAt.getD 0) else none }) }
  else none

/-- The `executionReport` expression of the `message_end` case. -/
def executionReportME (s : StreamState) : Option ExecReport :=
  if truthyStr s.workflowId then
    some {
      workflowId := s.workflowId.getD "",
      workflowRunId := s.workflowRunId,
      startedAt := s.workflowStartedAt,
      finishedAt := s.workflowFinishedAt,
      duration := if truthyInt s.workflowStartedAt && truthyInt s.workflowFinishedAt then
          some (s.workflowFinishedAt.getD 0 - s.workflowStartedAt.getD 0) else none,
      nodes := s.nodes.map (fun n => {
        nodeId := n.nodeId, nodeType := n.nodeType,
        startedAt := n.startedAt, finishedAt := n.finishedAt,
        duration := if truthyInt n.startedAt && truthyInt n.finishedAt then
            some (n.finishedAt.getD 0 - n.startedAt.getD 0) else none }) }
  else none

/-! ### Per-event handlers of the stream transform -/

/-- Identifier capture run before the per-kind dispatch (source lines
299-302): JS truthiness means a non-empty value overwrites, empty or
absent values do not. -/
def captureIds (e : DifyEvent) (s : StreamState) : StreamState :=
  { s with
    conversationId := if truthyStr e.conversation_id then e.conversation_id
                      else s.conversationId,
    messageId := if truthyStr e.message_id then e.message_id else s.messageId,
    taskId := if truthyStr e.task_id then e.task_id else s.taskId }

/-- `case "workflow_started"`. -/
def handleWorkflowStarted (e : DifyEvent) (s : StreamState) :
    StreamState × List StreamPart :=
  let s' :=
    match e.data with
    | some d =>
      if d.workflow_id.isSome && d.created_at.isSome then
        { s with workflowId := d.workflow_id, workflowRunId := e.workflow_run_id,
                 workflowStartedAt := d.created_at }
      else s
    | none => s
  let metaParts :=
    match e.data with
    | some d =>
      match d.created_at with
      | some ca => [StreamPart.responseMetadata e.workflow_run_id (some (ca * 1000))]
      | none => []
    | none => []
  (s', metaParts ++ [StreamPart.raw "workflow_started" none e])

/-- `case "workflow_finished"`: note it enqueues a terminal `finish`
part (source line 381) even though the comment directly above it
(source line 358) says only `message_end` should send `finish`. -/
def handleWorkflowFinished (e : DifyEvent) (s : StreamState) :
    StreamState × List StreamPart :=
  let su :=
    match e.data with
    | some d =>
      match d.finished_at with
      | some fa => ({ s with workflowFinishedAt := some fa },
          [StreamPart.responseMetadata e.workflow_run_id (some (fa * 1000))])
      | none => (s, ([] : List StreamPart))
    | none => (s, ([] : List StreamPart))
  let s' := su.1
  let rawDuration :=
    match e.data with
    | some d => d.elapsed_time
    | none => none
  let totalTokens :=
    match e.data with
    | some d => d.total_tokens.getD 0
    | none => 0
  (s', su.2 ++
    [StreamPart.raw "workflow_finished" rawDuration e,
     StreamPart.finish "stop" (some 0) (some totalTokens) (some totalTokens)
       { conversationId := s'.conversationId, messageId := s'.messageId,
         taskId := s'.taskId, workflowExecution := executionReportWF s' }])

/-- `case "node_started"`. -/
def handleNodeStarted (e : DifyEvent) (s : StreamState) :
    StreamState × List StreamPart :=
  match e.data with
  | some d =>
    match d.node_id, d.node_type with
    | some nid, some nty =>
      if truthyInt e.created_at then
        let ca := e.created_at.getD 0
        let info : NodeRecord :=
          { nodeId := nid, nodeType := nty, startedAt := some ca, finishedAt := none }
        ({ s with nodes := setNode s.nodes nid info },
         [StreamPart.responseMetadata (some ("node-" ++ nid)) (some (ca * 1000)),
          StreamPart.raw "node_started" none e])
      else (s, [StreamPart.raw "node_started" none e])
    | _, _ => (s, [StreamPart.raw "node_started" none e])
  | none => (s, [StreamPart.raw "node_started" none e])

/-- `case "node_finished"`: the ledger lookup may miss, in which case
the record update is a no-op and the raw duration stays `none`. -/
def handleNodeFinished (e : DifyEvent) (s : StreamState) :
    StreamState × List StreamPart :=
  match e.data with
  | some d =>
    match d.node_id with
    | some nid =>
      if truthyInt e.created_at then
        let ca := e.created_at.getD 0
        let existing := findNode s.nodes nid
        ({ s with nodes := updateNodeFinished s.nodes nid ca },
         [StreamPart.responseMetadata (some ("node-" ++ nid)) (some (ca * 1000)),
          StreamPart.raw "node_finished"
            (match existing with
             | some n => if truthyInt n.startedAt && truthyInt e.created_at then
                 some (ca - n.startedAt.getD 0) else none
             | none => none) e])
      else (s, [StreamPart.raw "node_finished" none e])
    | none => (s, [StreamPart.raw "node_finished" none e])
  | none => (s, [StreamPart.raw "node_finished" none e])

/-- `case "agent_thought"`. -/
def handleAgentThought (e : DifyEvent) (s : StreamState) :
    StreamState × List StreamPart :=
  let metaParts :=
    match e.id with
    | some i =>
      if truthyInt e.created_at then
        [StreamPart.responseMetadata (some i) (some (e.created_at.getD 0 * 1000))]
      else []
    | none => []
  (s, metaParts ++ [StreamPart.raw "agent_thought" none e])

/-- `case "message"` / `case "agent_message"`. -/
def handleMessage (genId : Nat → String) (e : DifyEvent) (s : StreamState) :
    StreamState × List StreamPart :=
  match e.answer with
  | some ans =>
    let r := parseContentWithThinking genId ans s
    let metaParts :=
      if e.event = "agent_message" then
        match e.id with
        | some i =>
          [StreamPart.responseMetadata (some i)
            (if truthyInt e.created_at then some (e.created_at.getD 0 * 1000) else none)]
        | none => []
      else []
    (r.1, r.2 ++ metaParts)
  | none => (s, [])

/-- `case "message_end"`. -/
def handleMessageEnd (e : DifyEvent) (s : StreamState) :
    StreamState × List StreamPart :=
  let se :=
    if s.isActiveText then
      ({ s with isActiveText := false }, [StreamPart.textEnd "answer"])
    else (s, ([] : List StreamPart))
  let s' := se.1
  let usage :=
    match e.metadata with
    | some m => m.usage
    | none => none
  let dataTokens :=
    match e.data with
    | some d => d.total_tokens
    | none => none
  let outputTokens := dataTokens.getD 0
  let totalTokens :=
    match dataTokens with
    | some t => some t
    | none => usage.bind UsageMeta.total_tokens
  (s', se.2 ++
    [StreamPart.finish "stop" (usage.bind UsageMeta.prompt_tokens)
       (some outputTokens) totalTokens
       { conversationId := s'.conversationId, messageId := s'.messageId,
         taskId := s'.taskId, workflowExecution := executionReportME s' }])

/-- The per-kind dispatch (`switch (data.event)`); the default case
passes unknown events through as `raw` parts. -/
def handleEvent (genId : Nat → String) (e : DifyEvent) (s : StreamState) :
    StreamState × List StreamPart :=
  if e.event = "workflow_started" then handleWorkflowStarted e s
  else if e.event = "workflow_finished" then handleWorkflowFinished e s
  else if e.event = "node_started" then handleNodeStarted e s
  else if e.event = "node_finished" then handleNodeFinished e s
  else if e.event = "agent_thought" then handleAgentThought e s
  else if e.event = "message" ∨ e.event = "agent_message" then handleMessage genId e s
  else if e.event = "message_end" then handleMessageEnd e s
  else (s, [StreamPart.raw e.event none e])

/-- The `transform(chunk, controller)` body: failed parse results
become `error` parts; successful ones go through identifier capture
then dispatch. -/
def transform (genId : Nat → String) (s : StreamState) : Chunk →
    StreamState × List StreamPart
  | Chunk.err m => (s, [StreamPart.error m])
  | Chunk.ok e => handleEvent genId e (captureIds e s)

/-- Process a whole upstream chunk sequence, concatenating the emitted
parts in order. -/
def processChunks (genId : Nat → String) (s : StreamState) :
    List Chunk → StreamState × List StreamPart
  | [] => (s, [])
  | c :: cs =>
    let r := transform genId s c
    let rest := processChunks genId r.1 cs
    (rest.1, r.2 ++ rest.2)

/-! ### Event schema validation (`dify-chat-schema.ts`)

`difyStreamEventSchema = z.discriminatedUnion("event", [...]).or(difyStreamEventBase)`:
a tagged union of eleven known event shapes, falling back (for unknown
tags or for known tags whose variant check fails) to the passthrough
base shape. Each shape's field checks below transcribe the zod schema;
zod `.passthrough()` preserves unknown fields, modelled by `decodeEvent`
keeping the full field list in `payload`. -/

def isOptStr : Option J → Bool
  | none => true
  | some (J.str _) => true
  | _ => false

def isOptNum : Option J → Bool
  | none => true
  | some (J.num _) => true
  | _ => false

def isReqStr : Option J → Bool
  | some (J.str _) => true
  | _ => false

def isReqNum : Option J → Bool
  | some (J.num _) => true
  | _ => false

/-- `z.record(...)`: a JSON object. -/
def isReqObj : Option J → Bool
  | some (J.obj _) => true
  | _ => false

def isReqArr : Option J → Bool
  | some (J.arr _) => true
  | _ => false

def isNullableStr : Option J → Bool
  | some J.null => true
  | some (J.str _) => true
  | _ => false

def isNullableObj : Option J → Bool
  | some J.null => true
  | some (J.obj _) => true
  | _ => false

/-- `z.any()` / `z.unknown()` / `z.any().nullable()`: anything,
including an absent field. -/
def isAnyJ : Option J → Bool := fun _ => true

/-- `z.array(z.string()).optional()`. -/
def isOptStrArr : Option J → Bool
  | none => true
  | some (J.arr xs) => xs.all (fun v => match v with | J.str _ => true | _ => false)
  | _ => false

/-- `z.record(z.string(), z.string())`. -/
def isStrRecord : Option J → Bool
  | some (J.obj fs) => fs.all (fun f => match f.2 with | J.str _ => true | _ => false)
  | _ => false

/-- `difyStreamEventBase`: common optional correlation fields plus a
required string `event` tag, passthrough. -/
def validBase (fs : List (String × J)) : Bool :=
  isReqStr (jget fs "event") &&
  isOptStr (jget fs "conversation_id") &&
  isOptStr (jget fs "message_id") &&
  isOptStr (jget fs "task_id") &&
  isOptNum (jget fs "created_at")

/-- `workflowStartedSchema` extra checks. -/
def validWorkflowStarted (fs : List (String × J)) : Bool :=
  isReqStr (jget fs "workflow_run_id") &&
  (match jget fs "data" with
   | some (J.obj ds) =>
     isReqStr (jget ds "id") && isReqStr (jget ds "workflow_id") &&
     isReqNum (jget ds "created_at") && isReqObj (jget ds "inputs")
   | _ => false)

/-- `workflowFinishedSchema` extra checks. -/
def validWorkflowFinished (fs : List (String × J)) : Bool :=
  isReqStr (jget fs "workflow_run_id") &&
  (match jget fs "data" with
   | some (J.obj ds) =>
     isReqStr (jget ds "id") && isReqStr (jget ds "workflow_id") &&
     isReqNum (jget ds "total_tokens") && isReqNum (jget ds "created_at") &&
     isReqStr (jget ds "status") && isReqObj (jget ds "outputs") &&
     isReqStr (jget ds "error") && isReqNum (jget ds "elapsed_time") &&
     isReqNum (jget ds "total_steps") &&
     (match jget ds "created_by" with
      | some (J.obj cs) => isReqStr (jget cs "id") && isReqStr (jget cs "user")
      | _ => false) &&
     isReqNum (jget ds "finished_at") && isReqNum (jget ds "exceptions_count") &&
     isReqArr (jget ds "files")
   | _ => false)

/-- `nodeStartedSchema` extra checks. -/
def validNodeStarted (fs : List (String × J)) : Bool :=
  isReqStr (jget fs "workflow_run_id") &&
  (match jget fs "data" with
   | some (J.obj ds) =>
     isReqStr (jget ds "id") && isReqStr (jget ds "node_id") &&
     isReqStr (jget ds "node_type") && isReqStr (jget ds "title") &&
     isReqNum (jget ds "index") && isNullableStr (jget ds "predecessor_node_id") &&
     isNullableObj (jget ds "inputs") && isReqNum (jget ds "created_at") &&
     isReqObj (jget ds "extras") && isNullableStr (jget ds "parallel_id") &&
     isNullableStr (jget ds "parallel_start_node_id") &&
     isNullableStr (jget ds "parent_parallel_id") &&
     isNullableStr (jget ds "parent_parallel_start_node_id") &&
     isNullableStr (jget ds "iteration_id") && isNullableStr (jget ds "loop_id") &&
     isNullableStr (jget ds "parallel_run_id") && isAnyJ (jget ds "agent_strategy")
   | _ => false)

/-- `nodeFinishedSchema` extra checks. -/
def validNodeFinished (fs : List (String × J)) : Bool :=
  isReqStr (jget fs "workflow_run_id") &&
  (match jget fs "data" with
   | some (J.obj ds) =>
     isReqStr (jget ds "id") && isReqStr (jget ds "node_id") &&
     isReqStr (jget ds "node_type") && isReqStr (jget ds "title") &&
     isReqNum (jget ds "index") && isNullableStr (jget ds "predecessor_node_id") &&
     isNullableObj (jget ds "inputs") && isAnyJ (jget ds "process_data") &&
     isNullableObj (jget ds "outputs") && isReqStr (jget ds "status") &&
     isNullableStr (jget ds "error") && isReqNum (jget ds "elapsed_time") &&
     isNullableObj (jget ds "execution_metadata") && isReqNum (jget ds "created_at") &&
     isReqNum (jget ds "finished_at") && isReqArr (jget ds "files") &&
     isNullableStr (jget ds "parallel_id") &&
     isNullableStr (jget ds "parallel_start_node_id") &&
     isNullableStr (jget ds "parent_parallel_id") &&
     isNullableStr (jget ds "parent_parallel_start_node_id") &&
     isNullableStr (jget ds "iteration_id") && isNullableStr (jget ds "loop_id")
   | _ => false)

/-- `messageSchema` extra checks. -/
def validMessage (fs : List (String × J)) : Bool :=
  isOptStr (jget fs "id") && isReqStr (jget fs "answer") &&
  isOptStrArr (jget fs "from_variable_selector")

/-- `messageEndSchema` extra checks. -/
def validMessageEnd (fs : List (String × J)) : Bool :=
  isReqStr (jget fs "id") &&
  (match jget fs "metadata" with
   | some (J.obj ms) =>
     (match jget ms "usage" with
      | some (J.obj us) =>
        isReqNum (jget us "prompt_tokens") && isReqNum (jget us "completion_tokens") &&
        isReqNum (jget us "total_tokens") && isReqStr (jget us "prompt_unit_price") &&
        isReqStr (jget us "prompt_price_unit") && isReqStr (jget us "prompt_price") &&
        isReqStr (jget us "completion_unit_price") &&
        isReqStr (jget us "completion_price_unit") &&
        isReqStr (jget us "completion_price") && isReqStr (jget us "total_price") &&
        isReqStr (jget us "currency") && isReqNum (jget us "latency")
      | _ => false) &&
     isAnyJ (jget ms "annotation_reply") && isReqArr (jget ms "retriever_resources")
   | _ => false) &&
  isReqArr (jget fs "files") && isReqObj (jget fs "quoteInfo")

/-- `ttsMessageSchema` / `ttsMessageEndSchema` extra checks. -/
def validTts (fs : List (String × J)) : Bool :=
  isReqStr (jget fs "audio")

/-- `agentMessageSchema` extra checks. -/
def validAgentMessage (fs : List (String × J)) : Bool :=
  isReqStr (jget fs "answer")

/-- `agentThoughtSchema` extra checks. -/
def validAgentThought (fs : List (String × J)) : Bool :=
  isReqStr (jget fs "thought") && isReqStr (jget fs "observation") &&
  isReqStr (jget fs "tool") && isStrRecord (jget fs "tool_labels") &&
  isReqStr (jget fs "tool_input") && isReqArr (jget fs "message_files")

/-- The event tags of the discriminated union. -/
def knownTags : List String :=
  ["workflow_started", "workflow_finished", "node_started", "node_finished",
   "message", "message_end", "tts_message", "tts_message_end",
   "agent_thought", "agent_message", "ping"]

/-- Variant check of the discriminated union for a known tag. -/
def validVariant (t : String) (fs : List (String × J)) : Bool :=
  if t = "workflow_started" then validBase fs && validWorkflowStarted fs
  else if t = "workflow_finished" then validBase fs && validWorkflowFinished fs
  else if t = "node_started" then validBase fs && validNodeStarted fs
  else if t = "node_finished" then validBase fs && validNodeFinished fs
  else if t = "message" then validBase fs && validMessage fs
  else if t = "message_end" then validBase fs && validMessageEnd fs
  else if t = "tts_message" then validBase fs && validTts fs
  else if t = "tts_message_end" then validBase fs && validTts fs
  else if t = "agent_thought" then validBase fs && validAgentThought fs
  else if t = "agent_message" then validBase fs && validAgentMessage fs
  else if t = "ping" then validBase fs
  else false

def jStr? : Option J → Option String
  | some (J.str s) => some s
  | _ => none

def jNum? : Option J → Option Int
  | some (J.num n) => some n
  | _ => none

/-- Typed view of a `data` payload object, extracting the fields the
transform reads. -/
def decodeData (fs : List (String × J)) : EventData :=
  { workflow_id := jStr? (jget fs "workflow_id"),
    created_at := jNum? (jget fs "created_at"),
    finished_at := jNum? (jget fs "finished_at"),
    elapsed_time := jNum? (jget fs "elapsed_time"),
    total_tokens := jNum? (jget fs "total_tokens"),
    node_id := jStr? (jget fs "node_id"),
    node_type := jStr? (jget fs "node_type") }

def decodeUsage (fs : List (String × J)) : UsageMeta :=
  { prompt_tokens := jNum? (jget fs "prompt_tokens"),
    completion_tokens := jNum? (jget fs "completion_tokens"),
    total_tokens := jNum? (jget fs "total_tokens") }

def decodeMetadata (fs : List (String × J)) : EventMetadata :=
  { usage := match jget fs "usage" with
      | some (J.obj us) => some (decodeUsage us)
      | _ => none }

/-- Typed view of a validated event object; `payload` keeps the whole
original field list (zod passthrough semantics). -/
def decodeEvent (fs : List (String × J)) : DifyEvent :=
  { event := (jStr? (jget fs "event")).getD "",
    conversation_id := jStr? (jget fs "conversation_id"),
    message_id := jStr? (jget fs "message_id"),
    task_id := jStr? (jget fs "task_id"),
    created_at := jNum? (jget fs "created_at"),
    workflow_run_id := jStr? (jget fs "workflow_run_id"),
    id := jStr? (jget fs "id"),
    answer := jStr? (jget fs "answer"),
    data := match jget fs "data" with
      | some (J.obj ds) => some (decodeData ds)
      | _ => none,
    metadata := match jget fs "metadata" with
      | some (J.obj ms) => some (decodeMetadata ms)
      | _ => none,
    payload := fs }

/-- `difyStreamEventSchema` validation: the discriminated union first
(it fails outright when the tag is not a known literal), then the
`.or(difyStreamEventBase)` fallback. -/
def validateDifyStreamEvent : J → Option DifyEvent
  | J.obj fs =>
    match jStr? (jget fs "event") with
    | some t =>
      if t ∈ knownTags then
        if validVariant t fs then some (decodeEvent fs)
        else if validBase fs then some (decodeEvent fs)
        else none
      else if validBase fs then some (decodeEvent fs)
      else none
    | none => none
  | _ => none

/-! ### Request construction (`getRequestBody`, source lines 576-648) -/

/-- One element of a message's content array: a plain string, an object
with a `type` tag (and possibly a `text` field), or anything else. -/
inductive ContentPart where
  | str (s : String)
  | tagged (ty : String) (text : Option String)
  | other

/-- A message's `content`: a string, an array of parts, or anything
else. -/
inductive MessageContent where
  | str (s : String)
  | parts (ps : List ContentPart)
  | other

structure ChatMessage where
  role : String
  content : MessageContent

/-- The synchronous request-construction failures, each carrying its
machine-checkable reason (the `APICallError` messages and
`requestBodyValues` of the source). -/
inductive RequestError where
  | noMessages
  | lastMessageNotUser (role : String)
  | attachmentsNotSupported

/-- The request body sent to the chat-messages endpoint. -/
structure DifyRequestBody where
  query : String
  response_mode : Option String
  conversation_id : Option String
  user : String

/-- `latestMessage.content.some(part => ... part.type === "file")`:
only array contents can carry attachments. -/
def hasAttachments (m : ChatMessage) : Bool :=
  match m.content with
  | MessageContent.parts ps =>
    ps.any (fun p => match p with
      | ContentPart.tagged ty _ => ty = "file"
      | _ => false)
  | _ => false

/-- Query extraction from the latest user message: strings verbatim;
arrays map text parts to their text, drop falsy pieces, join with a
space. -/
def extractQuery : MessageContent → String
  | MessageContent.str s => s
  | MessageContent.parts ps =>
    String.intercalate " "
      ((ps.map (fun p => match p with
          | ContentPart.str s => s
          | ContentPart.tagged ty tx =>
            if ty = "text" then
              match tx with
              | some t => t
              | none => ""
            else ""
          | ContentPart.other => "")).filter (fun s => s ≠ ""))
  | MessageContent.other => ""

/-- First header value for a key, modelling `options.headers?.[k]`. -/
def lookupHeader (hs : List (String × String)) (k : String) : Option String :=
  (hs.find? (fun h => h.1 = k)).map (fun h => h.2)

/-- `getRequestBody`: raises (returns `.error`) before any network call
when no messages are given, the last message is not a user message, or
the last message carries a file attachment; otherwise builds the body. -/
def getRequestBody (responseMode : Option String) (prompt : List ChatMessage)
    (headers : List (String × String)) : Except RequestError DifyRequestBody :=
  match prompt.getLast? with
  | none => Except.error RequestError.noMessages
  | some last =>
    if last.role ≠ "user" then
      Except.error (RequestError.lastMessageNotUser last.role)
    else if hasAttachments last then
      Except.error RequestError.attachmentsNotSupported
    else
      Except.ok
        { query := extractQuery last.content,
          response_mode := responseMode,
          conversation_id := lookupHeader headers "chat-id",
          user := (lookupHeader headers "user-id").getD "you_should_pass_user-id" }

/-! ### Non-streaming response mapper (`doGenerate`, source lines 93-125) -/

structure CompletionUsage where
  completion_tokens : Int
  prompt_tokens : Int
  total_tokens : Int

structure CompletionMetadata where
  usage : CompletionUsage

/-- The validated blocking-mode response (`completionResponseSchema`). -/
structure CompletionResponse where
  id : String
  answer : String
  task_id : String
  conversation_id : String
  message_id : String
  metadata : CompletionMetadata

inductive GenContent where
  | text (t : String)

/-- The pure part of the `doGenerate` result (content, finish reason,
usage, provider metadata). -/
structure GenerateResult where
  content : List GenContent
  finishReason : String
  inputTokens : Int
  outputTokens : Int
  totalTokens : Int
  metaConversationId : String
  metaMessageId : String

/-- The response-object-to-result mapping performed by `doGenerate`
after a successful request: a text block only for a truthy (non-empty)
answer, usage copied from `metadata.usage`, fixed finish reason. -/
def doGenerateMap (r : CompletionResponse) : GenerateResult :=
  { content := if r.answer ≠ "" then [GenContent.text r.answer] else [],
    finishReason := "stop",
    inputTokens := r.metadata.usage.prompt_tokens,
    outputTokens := r.metadata.usage.completion_tokens,
    totalTokens := r.metadata.usage.total_tokens,
    metaConversationId := r.conversation_id,
    metaMessageId := r.message_id }

/-! ### Concrete fixtures for counterexamples and witnesses -/

/-- A concrete deterministic id generator standing in for the opaque
`generateId`. -/
def idGen (n : Nat) : String := "id" ++ toString n

/-- A minimal `workflow_finished` event (no `data` payload). -/
def wfFinishedMin : DifyEvent := { event := "workflow_finished" }

/-- A minimal `message_end` event. -/
def msgEndMin : DifyEvent := { event := "message_end" }

/-- A `ping` event carrying all three correlation ids. -/
def pingA : DifyEvent :=
  { event := "ping", conversation_id := some "a", message_id := some "m1",
    task_id := some "t1" }

/-- A later `ping` event carrying a different non-empty conversation id. -/
def pingB : DifyEvent := { event := "ping", conversation_id := some "b" }

/-- A `message` event with the given answer fragment. -/
def mkMsg (a : String) : DifyEvent := { event := "message", answer := some a }

def countFinish (ps : List StreamPart) : Nat :=
  ps.countP (fun p => match p with
    | StreamPart.finish _ _ _ _ _ => true
    | _ => false)

def countTextStart (ps : List StreamPart) : Nat :=
  ps.countP (fun p => match p with
    | StreamPart.textStart _ => true
    | _ => false)

def countTextEnd (ps : List StreamPart) : Nat :=
  ps.countP (fun p => match p with
    | StreamPart.textEnd _ => true
    | _ => false)

/-- Conversation ids attached to the `finish` parts of a part list. -/
def finishConvIds (ps : List StreamPart) : List (Option String) :=
  ps.filterMap (fun p => match p with
    | StreamPart.finish _ _ _ _ m => some m.conversationId
    | _ => none)

/-! ### Helper lemmas shared across claims -/

/-- The splitter never touches the correlation ids. -/
lemma parse_preserves_ids (genId : Nat → String) (c : String) (s : StreamState) :
    (parseContentWithThinking genId c s).1.conversationId = s.conversationId ∧
    (parseContentWithThinking genId c s).1.messageId = s.messageId ∧
    (parseContentWithThinking genId c s).1.taskId = s.taskId := by
  unfold parseContentWithThinking
  dsimp only
  repeat' split
  all_goals exact ⟨rfl, rfl, rfl⟩

/-- No per-kind handler touches the correlation ids. -/
lemma handleEvent_preserves_ids (genId : Nat → String) (e : DifyEvent) (s : StreamState) :
    (handleEvent genId e s).1.conversationId = s.conversationId ∧
    (handleEvent genId e s).1.messageId = s.messageId ∧
    (handleEvent genId e s).1.taskId = s.taskId := by
  unfold handleEvent handleWorkflowStarted handleWorkflowFinished handleNodeStarted
    handleNodeFinished handleAgentThought handleMessage handleMessageEnd
  dsimp only
  repeat' split
  all_goals first
    | exact ⟨rfl, rfl, rfl⟩
    | exact parse_preserves_ids genId _ s

/-- When the event tag is `message_end`, the dispatch runs the
`message_end` handler. -/
lemma handleEvent_msgEnd (genId : Nat → String) (e : DifyEvent) (s : StreamState)
    (h : e.event = "message_end") :
    handleEvent genId e s = handleMessageEnd e s := by
  unfold handleEvent
  rw [h]
  rfl

/-- When the event tag is not one of the recognized ones, the dispatch
falls through to the default `raw` passthrough. -/
lemma handleEvent_unknown (genId : Nat → String) (e : DifyEvent) (s : StreamState)
    (h : e.event ∉ knownTags) :
    handleEvent genId e s = (s, [StreamPart.raw e.event none e]) := by
  have h1 : ¬ e.event = "workflow_started" := fun hh => h (by simp [knownTags, hh])
  have h2 : ¬ e.event = "workflow_finished" := fun hh => h (by simp [knownTags, hh])
  have h3 : ¬ e.event = "node_started" := fun hh => h (by simp [knownTags, hh])
  have h4 : ¬ e.event = "node_finished" := fun hh => h (by simp [knownTags, hh])
  have h5 : ¬ e.event = "agent_thought" := fun hh => h (by simp [knownTags, hh])
  have h6 : ¬ e.event = "message" := fun hh => h (by simp [knownTags, hh])
  have h6' : ¬ e.event = "agent_message" := fun hh => h (by simp [knownTags, hh])
  have h7 : ¬ e.event = "message_end" := fun hh => h (by simp [knownTags, hh])
  unfold handleEvent
  rw [if_neg h1, if_neg h2, if_neg h3, if_neg h4, if_neg h5,
      if_neg (not_or.mpr ⟨h6, h6'⟩), if_neg h7]

/-- When the event tag is `node_finished`, the dispatch runs the
`node_finished` handler. -/
lemma handleEvent_nodeFinished (genId : Nat → String) (e : DifyEvent) (s : StreamState)
    (h : e.event = "node_finished") :
    handleEvent genId e s = handleNodeFinished e s := by
  unfold handleEvent
  rw [h]
  rfl

/-- When the event tag is `message` or `agent_message`, the dispatch
runs the message handler. -/
lemma handleEvent_message (genId : Nat → String) (e : DifyEvent) (s : StreamState)
    (h : e.event = "message" ∨ e.event = "agent_message") :
    handleEvent genId e s = handleMessage genId e s := by
  cases h with
  | inl h => unfold handleEvent; rw [h]; rfl
  | inr h => unfold handleEvent; rw [h]; rfl

/-- Updating the finish timestamp of an absent node id leaves the
ledger unchanged. -/
lemma updateNodeFinished_absent (k : String) (t : Int) :
    ∀ ns : List NodeRecord, findNode ns k = none → updateNodeFinished ns k t = ns := by
  intro ns
  induction ns with
  | nil => intro _; rfl
  | cons n rest ih =>
    intro h
    by_cases hk : n.nodeId = k
    · exfalso
      unfold findNode at h
      simp [List.find?, hk] at h
    · have h' : findNode rest k = none := by
        unfold findNode at h ⊢
        simpa [List.find?, hk] using h
      unfold updateNodeFinished at ih ⊢
      simp [hk, ih h']

/-- The `message_end` handler emits its `finish` part last, with the
provider metadata ids read from the handler's final state. -/
lemma handleMessageEnd_finish (e : DifyEvent) (s : StreamState) :
    ∃ pre i o t rep, (handleMessageEnd e s).2 = pre ++
      [StreamPart.finish "stop" i o t
        { conversationId := (handleMessageEnd e s).1.conversationId,
          messageId := (handleMessageEnd e s).1.messageId,
          taskId := (handleMessageEnd e s).1.taskId,
          workflowExecution := rep }] := by
  unfold handleMessageEnd
  dsimp only
  repeat' split
  all_goals exact ⟨_, _, _, _, _, rfl⟩

/-! ### C1 -/

/-- C1: an upstream sequence containing both a `workflow_finished` and
a `message_end` event yields TWO `finish` parts, and parts keep flowing
after the first `finish` — the code's `workflow_finished` case enqueues
a `finish` part even though its own comment says only `message_end`
should send `finish`. -/
theorem c1_two_finish_parts :
    countFinish (processChunks idGen {} [Chunk.ok wfFinishedMin, Chunk.ok msgEndMin]).2 = 2 := by
  rfl

/-! ### C3 -/

/-- C3: from the initial splitter state, fragments `"<think>\nfoo"` then
`"bar\n</think>baz"` produce exactly reasoning-start,
reasoning-delta("foo"), reasoning-delta("bar"), reasoning-end,
text-start, text-delta("baz"), in order. -/
theorem c3_think_split (genId : Nat → String) :
    (parseContentWithThinking genId "<think>\nfoo" {}).2 ++
      (parseContentWithThinking genId "bar\n</think>baz"
        (parseContentWithThinking genId "<think>\nfoo" {}).1).2 =
    [StreamPart.reasoningStart (genId 0),
     StreamPart.reasoningDelta (genId 0) "foo",
     StreamPart.reasoningDelta (genId 0) "bar",
     StreamPart.reasoningEnd (genId 0),
     StreamPart.textStart "answer",
     StreamPart.textDelta "answer" "baz"] := by
  rfl

/-! ### C2 -/

/-- C2 counterexample: with conversation_id "a" observed first and a
later event carrying "b", the terminal `finish` part's metadata holds
"b" — the LAST non-empty value — not the first ("a") as the claim
states. -/
theorem c2_counterexample :
    finishConvIds
      (processChunks idGen {} [Chunk.ok pingA, Chunk.ok pingB, Chunk.ok msgEndMin]).2 =
      [some "b"] ∧ ("b" : String) ≠ "a" := by
  exact ⟨rfl, by decide⟩

/-- C2 amended: the identifiers follow LAST-non-empty-wins semantics —
each processed event overwrites a stored id exactly when it carries a
non-empty value for it (empty or absent values never overwrite), and
the `finish` part emitted by `message_end` carries the state's ids as
of that event. -/
theorem c2_amended (genId : Nat → String) (s : StreamState) (e : DifyEvent) :
    (transform genId s (Chunk.ok e)).1.conversationId =
      (if truthyStr e.conversation_id then e.conversation_id else s.conversationId) ∧
    (transform genId s (Chunk.ok e)).1.messageId =
      (if truthyStr e.message_id then e.message_id else s.messageId) ∧
    (transform genId s (Chunk.ok e)).1.taskId =
      (if truthyStr e.task_id then e.task_id else s.taskId) ∧
    (e.event = "message_end" →
      ∃ pre i o t rep, (transform genId s (Chunk.ok e)).2 = pre ++
        [StreamPart.finish "stop" i o t
          { conversationId := (transform genId s (Chunk.ok e)).1.conversationId,
            messageId := (transform genId s (Chunk.ok e)).1.messageId,
            taskId := (transform genId s (Chunk.ok e)).1.taskId,
            workflowExecution := rep }]) := by
  have hids := handleEvent_preserves_ids genId e (captureIds e s)
  refine ⟨hids.1, hids.2.1, hids.2.2, ?_⟩
  intro h
  have hme : transform genId s (Chunk.ok e) = handleMessageEnd e (captureIds e s) :=
    handleEvent_msgEnd genId e (captureIds e s) h
  rw [hme]
  exact handleMessageEnd_finish e (captureIds e s)

/-- C2 amended witness: the amended theorem instantiated at a concrete
`message_end` event carrying conversation id "b" over a state holding
"a". -/
theorem c2_amended_witness :
    (transform idGen { conversationId := some "a" }
        (Chunk.ok { event := "message_end", conversation_id := some "b" })).1.conversationId =
      some "b" ∧
    ∃ pre i o t rep,
      (transform idGen { conversationId := some "a" }
        (Chunk.ok { event := "message_end", conversation_id := some "b" })).2 = pre ++
        [StreamPart.finish "stop" i o t
          { conversationId :=
              (transform idGen { conversationId := some "a" }
                (Chunk.ok { event := "message_end", conversation_id := some "b" })).1.conversationId,
            messageId :=
              (transform idGen { conversationId := some "a" }
                (Chunk.ok { event := "message_end", conversation_id := some "b" })).1.messageId,
            taskId :=
              (transform idGen { conversationId := some "a" }
                (Chunk.ok { event := "message_end", conversation_id := some "b" })).1.taskId,
            workflowExecution := rep }] := by
  have h := c2_amended idGen { conversationId := some "a" }
    { event := "message_end", conversation_id := some "b" }
  exact ⟨h.1, h.2.2.2 rfl⟩

/-! ### C4 -/

/-- C4 counterexample: the run "hello", "\x3cthink\x3e\nx",
"a\n\x3c/think\x3eb" emits TWO text-start parts with no text-end in
between — the end-marker branch opens the answer channel with a
`text-start` unconditionally, even though it is already open. -/
theorem c4_counterexample :
    countTextStart (processChunks idGen {}
      [Chunk.ok (mkMsg "hello"), Chunk.ok (mkMsg "<think>\nx"),
       Chunk.ok (mkMsg "a\n</think>b")]).2 = 2 ∧
    countTextEnd (processChunks idGen {}
      [Chunk.ok (mkMsg "hello"), Chunk.ok (mkMsg "<think>\nx"),
       Chunk.ok (mkMsg "a\n</think>b")]).2 = 0 := by
  exact ⟨rfl, rfl⟩

/-- C4 amended: inside a reasoning block, a fragment containing the
end-marker with a non-empty remainder emits the final reasoning-delta
(when non-empty), reasoning-end, clears the inside-reasoning flag, and
then emits `text-start` UNCONDITIONALLY (even when the answer channel
is already open) followed by the `text-delta` for the remainder,
marking the channel open. -/
theorem c4_amended (genId : Nat → String) (s : StreamState) (frag : String)
    (h1 : s.isInThinking = true)
    (h2 : hasSubstr frag thinkEnd = true)
    (h3 : (splitOnStr frag thinkEnd).getD 1 "" ≠ "") :
    parseContentWithThinking genId frag s =
      ({ s with isInThinking := false, isActiveReasoning := false, isActiveText := true },
       (if (splitOnStr frag thinkEnd).headD "" ≠ "" then
          [StreamPart.reasoningDelta s.reasoningId ((splitOnStr frag thinkEnd).headD "")]
        else []) ++
       [StreamPart.reasoningEnd s.reasoningId, StreamPart.textStart "answer",
        StreamPart.textDelta "answer" ((splitOnStr frag thinkEnd).getD 1 "")]) := by
  unfold parseContentWithThinking
  rw [h1]
  simp only [Bool.not_true, Bool.and_false, Bool.false_eq_true, if_false, if_true, h2]
  rw [if_pos h3]

/-- C4 amended witness: concrete instance with the answer channel
already open — the output still contains a `text-start`. -/
theorem c4_amended_witness :
    parseContentWithThinking idGen "a\n</think>b"
      { isInThinking := true, isActiveText := true, reasoningId := "r" } =
      ({ isInThinking := false, isActiveReasoning := false, isActiveText := true,
         reasoningId := "r" },
       [StreamPart.reasoningDelta "r" "a", StreamPart.reasoningEnd "r",
        StreamPart.textStart "answer", StreamPart.textDelta "answer" "b"]) := by
  have h := c4_amended idGen
    { isInThinking := true, isActiveText := true, reasoningId := "r" }
    "a\n</think>b" rfl (by decide) (by decide)
  simpa using h

/-! ### C9 -/

/-- C9: for any fixed stream state, the execution report computed in
the `workflow_finished` handler and the one computed in the
`message_end` handler are identical — both transcriptions of the two
source regions compute the same identifiers, timestamps, derived
workflow duration and per-node durations. -/
theorem c9_reports_agree (s : StreamState) :
    executionReportWF s = executionReportME s := by
  rfl

/-! ### C5 -/

/-- C5: request construction fails synchronously, with a
machine-checkable reason, exactly when the message list is empty, the
last message is not a user message, or the last message carries a
file-type content part; in every other case it succeeds with the built
body. -/
theorem c5_request_errors (rm : Option String) (prompt : List ChatMessage)
    (hs : List (String × String)) :
    (prompt = [] → getRequestBody rm prompt hs = Except.error RequestError.noMessages) ∧
    (∀ last, prompt.getLast? = some last → last.role ≠ "user" →
      getRequestBody rm prompt hs =
        Except.error (RequestError.lastMessageNotUser last.role)) ∧
    (∀ last, prompt.getLast? = some last → last.role = "user" →
      hasAttachments last = true →
      getRequestBody rm prompt hs = Except.error RequestError.attachmentsNotSupported) ∧
    (∀ last, prompt.getLast? = some last → last.role = "user" →
      hasAttachments last = false →
      getRequestBody rm prompt hs = Except.ok
        { query := extractQuery last.content, response_mode := rm,
          conversation_id := lookupHeader hs "chat-id",
          user := (lookupHeader hs "user-id").getD "you_should_pass_user-id" }) := by
  refine ⟨?_, ?_, ?_, ?_⟩
  · intro h
    subst h
    rfl
  · intro last hl hr
    unfold getRequestBody
    rw [hl]
    dsimp only
    rw [if_pos hr]
  · intro last hl hr ha
    unfold getRequestBody
    rw [hl]
    dsimp only
    rw [if_neg (not_not_intro hr), if_pos ha]
  · intro last hl hr ha
    unfold getRequestBody
    rw [hl]
    dsimp only
    rw [if_neg (not_not_intro hr), if_neg (by simp [ha])]

/-- C5 witness: a plain user message succeeds; an assistant-last prompt
fails with the role-mismatch reason; a file part fails with the
attachment reason. -/
theorem c5_witness :
    getRequestBody (some "streaming")
      [{ role := "user", content := MessageContent.str "hi" }] [] =
      Except.ok { query := "hi", response_mode := some "streaming",
                  conversation_id := none, user := "you_should_pass_user-id" } ∧
    getRequestBody (some "streaming")
      [{ role := "assistant", content := MessageContent.str "x" }] [] =
      Except.error (RequestError.lastMessageNotUser "assistant") ∧
    getRequestBody (some "streaming")
      [{ role := "user",
         content := MessageContent.parts [ContentPart.tagged "file" none] }] [] =
      Except.error RequestError.attachmentsNotSupported := by
  refine ⟨?_, ?_, ?_⟩
  · exact (c5_request_errors (some "streaming")
      [{ role := "user", content := MessageContent.str "hi" }] []).2.2.2
      { role := "user", content := MessageContent.str "hi" } rfl rfl rfl
  · exact (c5_request_errors (some "streaming")
      [{ role := "assistant", content := MessageContent.str "x" }] []).2.1
      { role := "assistant", content := MessageContent.str "x" } rfl (by decide)
  · exact (c5_request_errors (some "streaming")
      [{ role := "user",
         content := MessageContent.parts [ContentPart.tagged "file" none] }] []).2.2.1
      { role := "user",
        content := MessageContent.parts [ContentPart.tagged "file" none] } rfl rfl rfl

/-! ### C6 -/

/-- C6: a `node_finished` event whose node id was never recorded by a
`node_started` event is a no-op on the node ledger, while the handler
still emits its response-metadata part and its raw part with the
duration field undefined. -/
theorem c6_unseen_node (genId : Nat → String) (s : StreamState) (e : DifyEvent)
    (d : EventData) (nid : String)
    (h1 : e.event = "node_finished") (h2 : e.data = some d)
    (h3 : d.node_id = some nid) (h4 : truthyInt e.created_at = true)
    (h5 : findNode s.nodes nid = none) :
    (transform genId s (Chunk.ok e)).1.nodes = s.nodes ∧
    (transform genId s (Chunk.ok e)).2 =
      [StreamPart.responseMetadata (some ("node-" ++ nid))
         (some (e.created_at.getD 0 * 1000)),
       StreamPart.raw "node_finished" none e] := by
  have hcs : (captureIds e s).nodes = s.nodes := rfl
  have hd : transform genId s (Chunk.ok e) = handleNodeFinished e (captureIds e s) :=
    handleEvent_nodeFinished genId e (captureIds e s) h1
  rw [hd]
  unfold handleNodeFinished
  rw [h2]
  dsimp only
  rw [h3]
  dsimp only
  rw [if_pos h4]
  dsimp only
  rw [hcs, h5, updateNodeFinished_absent nid (e.created_at.getD 0) s.nodes h5]
  exact ⟨rfl, rfl⟩

/-- C6 witness: concrete `node_finished` for node "n1" over an empty
ledger. -/
theorem c6_witness :
    (transform idGen {}
      (Chunk.ok { event := "node_finished", created_at := some 5,
                  data := some { node_id := some "n1" } })).1.nodes = [] ∧
    (transform idGen {}
      (Chunk.ok { event := "node_finished", created_at := some 5,
                  data := some { node_id := some "n1" } })).2 =
      [StreamPart.responseMetadata (some "node-n1") (some 5000),
       StreamPart.raw "node_finished" none
         { event := "node_finished", created_at := some 5,
           data := some { node_id := some "n1" } }] := by
  exact c6_unseen_node idGen {}
    { event := "node_finished", created_at := some 5,
      data := some { node_id := some "n1" } }
    { node_id := some "n1" } "n1" rfl rfl rfl (by decide) rfl

/-! ### C7 -/

/-- C7: a stream element whose event tag is not one of the known kinds
validates successfully via the fallback base shape with its full field
list preserved, and the translator emits it as a single `raw` part
whose rawValue carries the original tag and payload — never dropped and
never an error part. -/
theorem c7_unknown_event (genId : Nat → String) (s : StreamState)
    (fs : List (String × J)) (t : String)
    (h1 : jget fs "event" = some (J.str t))
    (h2 : t ∉ knownTags)
    (h3 : validBase fs = true) :
    validateDifyStreamEvent (J.obj fs) = some (decodeEvent fs) ∧
    (decodeEvent fs).payload = fs ∧
    (decodeEvent fs).event = t ∧
    (transform genId s (Chunk.ok (decodeEvent fs))).2 =
      [StreamPart.raw t none (decodeEvent fs)] := by
  have hev : (decodeEvent fs).event = t := by
    simp [decodeEvent, h1, jStr?]
  refine ⟨?_, rfl, hev, ?_⟩
  · unfold validateDifyStreamEvent
    dsimp only
    rw [h1]
    dsimp only [jStr?]
    rw [if_neg h2, if_pos h3]
  · have hu := handleEvent_unknown genId (decodeEvent fs)
      (captureIds (decodeEvent fs) s) (hev ▸ h2)
    show (handleEvent genId (decodeEvent fs) (captureIds (decodeEvent fs) s)).2 = _
    rw [hu, hev]

/-- C7 witness: the unknown tag "foo_bar" with an extra custom field
validates via the base shape and is passed through as a raw part. -/
theorem c7_witness :
    validateDifyStreamEvent
        (J.obj [("event", J.str "foo_bar"), ("custom", J.num 42)]) =
      some (decodeEvent [("event", J.str "foo_bar"), ("custom", J.num 42)]) ∧
    (decodeEvent [("event", J.str "foo_bar"), ("custom", J.num 42)]).payload =
      [("event", J.str "foo_bar"), ("custom", J.num 42)] ∧
    (decodeEvent [("event", J.str "foo_bar"), ("custom", J.num 42)]).event = "foo_bar" ∧
    (transform idGen {}
      (Chunk.ok (decodeEvent [("event", J.str "foo_bar"), ("custom", J.num 42)]))).2 =
      [StreamPart.raw "foo_bar" none
        (decodeEvent [("event", J.str "foo_bar"), ("custom", J.num 42)])] := by
  exact c7_unknown_event idGen {}
    [("event", J.str "foo_bar"), ("custom", J.num 42)] "foo_bar"
    rfl (by decide) rfl

/-! ### C8 -/

/-- C8: in the non-streaming path, an empty answer yields zero text
blocks while usage is copied from `metadata.usage` and the metadata
still exposes the conversation and message ids; a non-empty answer
yields exactly one verbatim text block; the finish reason is always
"stop". -/
theorem c8_generate_map (r : CompletionResponse) :
    (r.answer = "" → (doGenerateMap r).content = []) ∧
    (r.answer ≠ "" → (doGenerateMap r).content = [GenContent.text r.answer]) ∧
    (doGenerateMap r).finishReason = "stop" ∧
    (doGenerateMap r).inputTokens = r.metadata.usage.prompt_tokens ∧
    (doGenerateMap r).outputTokens = r.metadata.usage.completion_tokens ∧
    (doGenerateMap r).totalTokens = r.metadata.usage.total_tokens ∧
    (doGenerateMap r).metaConversationId = r.conversation_id ∧
    (doGenerateMap r).metaMessageId = r.message_id := by
  refine ⟨?_, ?_, rfl, rfl, rfl, rfl, rfl, rfl⟩
  · intro h
    simp [doGenerateMap, h]
  · intro h
    simp [doGenerateMap, h]

/-- C8 witness: a response with an empty answer yields no content
blocks; one with answer "hi" yields exactly one. -/
theorem c8_witness :
    (doGenerateMap
      { id := "r1", answer := "", task_id := "t", conversation_id := "c",
        message_id := "m",
        metadata := { usage :=
          { completion_tokens := 3, prompt_tokens := 2, total_tokens := 5 } } }).content =
      [] ∧
    (doGenerateMap
      { id := "r2", answer := "hi", task_id := "t", conversation_id := "c",
        message_id := "m",
        metadata := { usage :=
          { completion_tokens := 3, prompt_tokens := 2, total_tokens := 5 } } }).content =
      [GenContent.text "hi"] := by
  refine ⟨?_, ?_⟩
  · exact (c8_generate_map
      { id := "r1", answer := "", task_id := "t", conversation_id := "c",
        message_id := "m",
        metadata := { usage :=
          { completion_tokens := 3, prompt_tokens := 2, total_tokens := 5 } } }).1 rfl
  · exact (c8_generate_map
      { id := "r2", answer := "hi", task_id := "t", conversation_id := "c",
        message_id := "m",
        metadata := { usage :=
          { completion_tokens := 3, prompt_tokens := 2, total_tokens := 5 } } }).2.1
      (by decide)

/-! ### C10 -/

/-- C10: a `message` or `agent_message` event whose answer is the empty
string, arriving while not inside a reasoning block and with the answer
channel closed, still opens the channel: the output starts with
`text-start` followed by a `text-delta` whose delta is the empty
string (and for a plain `message` event that is all). -/
theorem c10_empty_answer (genId : Nat → String) (s : StreamState) (e : DifyEvent)
    (h1 : e.event = "message" ∨ e.event = "agent_message")
    (h2 : e.answer = some "")
    (h3 : s.isInThinking = false) (h4 : s.isActiveText = false) :
    ∃ rest, (transform genId s (Chunk.ok e)).2 =
      StreamPart.textStart "answer" :: StreamPart.textDelta "answer" "" :: rest ∧
      (e.event = "message" → rest = []) := by
  have hd : transform genId s (Chunk.ok e) = handleMessage genId e (captureIds e s) :=
    handleEvent_message genId e (captureIds e s) h1
  have h3' : (captureIds e s).isInThinking = false := h3
  have h4' : (captureIds e s).isActiveText = false := h4
  have hb : hasSubstr "" thinkBegin = false := rfl
  have hp : parseContentWithThinking genId "" (captureIds e s) =
      ({ captureIds e s with isActiveText := true },
       [StreamPart.textStart "answer", StreamPart.textDelta "answer" ""]) := by
    unfold parseContentWithThinking
    simp [hb, h3', h4']
  rw [hd]
  unfold handleMessage
  rw [h2]
  dsimp only
  rw [hp]
  cases h1 with
  | inl h =>
    refine ⟨[], ?_, fun _ => rfl⟩
    rw [h]
    simp
  | inr h =>
    refine ⟨_, rfl, fun hmsg => ?_⟩
    rw [hmsg] at h
    exact absurd h (by decide)

/-- C10 witness: a concrete `message` event with an empty answer from
the initial state emits exactly text-start then an empty text-delta. -/
theorem c10_witness :
    ∃ rest, (transform idGen {} (Chunk.ok (mkMsg ""))).2 =
      StreamPart.textStart "answer" :: StreamPart.textDelta "answer" "" :: rest ∧
      ((mkMsg "").event = "message" → rest = []) := by
  exact c10_empty_answer idGen {} (mkMsg "") (Or.inl rfl) rfl rfl rfl

end DifySpec
